import Mathlib

/-
Formal model of the cortana-pro-ai real-time messaging + voice session
coordinator: the VoiceChatSimple component (src/src/components/VoiceChatSimple.tsx)
and the useDirectWebPubSubClient hook (the second file of src/unnamed/part_003).

The JavaScript code runs on a single event loop; each handler is modelled as a
pure function from the component's mutable state (React state + refs) to a new
state together with a list of emitted external actions (network sends, speech
synthesis calls, toasts).  External effects whose outcome the code merely
observes (Date.now(), JSON.parse, the WebPubSub send result, the dynamic SDK
import) are passed in as explicit parameters.  JavaScript strings are modelled
as Lean strings; the string operations used by the source (trim, toLowerCase,
includes, split, length) are re-implemented below by structural recursion on
the character list so that every definition evaluates inside the kernel.
-/

namespace Cortana

/-! ### String primitives (JS `includes`, `toLowerCase`, `trim`, split) -/

/-- `listStarts needle hay`: `needle` is a prefix of `hay` (by `==` on chars). -/
def listStarts : List Char → List Char → Bool
  | [], _ => true
  | _ :: _, [] => false
  | a :: as, b :: bs => a == b && listStarts as bs

/-- `listInfix needle hay`: `needle` occurs contiguously inside `hay`. -/
def listInfix (needle : List Char) : List Char → Bool
  | [] => needle.isEmpty
  | c :: rest => listStarts needle (c :: rest) || listInfix needle rest

/-- JS `s.includes(sub)`. -/
def includesS (s sub : String) : Bool := listInfix sub.data s.data

/-- JS `s.toLowerCase()` (the source only matches ASCII keywords). -/
def lowerS (s : String) : String := ⟨s.data.map Char.toLower⟩

/-- JS `s.trim()`. -/
def trimS (s : String) : String :=
  ⟨((s.data.dropWhile Char.isWhitespace).reverse.dropWhile Char.isWhitespace).reverse⟩

/-- JS truthiness of an optional string (`undefined` and `""` are falsy). -/
def strTruthy : Option String → Bool
  | some s => !(s == "")
  | none => false

/-! ### Style-aware TTS: sentence splitting and the keyword style classifier
(`speakReceivedMessageWithDynamicStyles`, VoiceChatSimple.tsx lines 838-939) -/

structure StyledPart where
  text : String
  style : String
  degree : String
deriving DecidableEq, Repr

/-- A sentence separator character, from the regex `/[.!?]+/`. -/
def sentencePunct (c : Char) : Bool := c == '.' || c == '!' || c == '?'

/-- Split on single separator characters.  JS `split(/[.!?]+/)` collapses runs
of separators; splitting on each separator instead only adds extra empty
pieces, which the `filter` in `sentencesOf` removes, so the filtered results
coincide. -/
def splitSentencesAux : List Char → List Char → List String
  | [], acc => [⟨acc.reverse⟩]
  | c :: rest, acc =>
    if sentencePunct c then String.mk acc.reverse :: splitSentencesAux rest []
    else splitSentencesAux rest (c :: acc)

/-- `text.split(/[.!?]+/).filter(s => s.trim().length > 0)`. -/
def sentencesOf (text : String) : List String :=
  (splitSentencesAux text.data []).filter (fun s => 0 < (trimS s).length)

/-- `trimmedSentence.match(/[.!?]$/)`: the last character is sentence
punctuation. -/
def endsWithSentencePunct (s : String) : Bool :=
  match s.data.reverse with
  | [] => false
  | c :: _ => sentencePunct c

/-- The per-sentence keyword style classifier: the chain of `if` statements of
`speakReceivedMessageWithDynamicStyles`, applied to the lower-cased trimmed
sentence, returning `(style, styledegree)`. -/
def styleFor (l : String) : String × String :=
  if includesS l "good morning" || includesS l "hello" ||
     includesS l "have a great" || includesS l "wishing you" ||
     includesS l "hope you" || includesS l "enjoy" then ("cheerful", "1.4")
  else if includesS l "weather" || includesS l "temperature" ||
          includesS l "rain" || includesS l "cloudy" ||
          includesS l "sunny" || includesS l "degrees" then ("friendly", "1.2")
  else if includesS l "schedule" || includesS l "appointment" ||
          includesS l "meeting" || includesS l "office" ||
          includesS l "plan to leave" ||
          (includesS l "time" && (includesS l "am" || includesS l "pm")) then ("assistant", "1.1")
  else if includesS l "remember" || includesS l "don\x27t forget" ||
          includesS l "make sure" || includesS l "important" ||
          includesS l "please" || includesS l "should" then ("empathetic", "1.3")
  else if includesS l "suggest" || includesS l "recommend" ||
          includesS l "might" || includesS l "consider" ||
          includesS l "try" then ("hopeful", "1.2")
  else if includesS l "let me know" || includesS l "if you need" ||
          includesS l "help" || includesS l "anything else" ||
          includesS l "feel free" then ("friendly", "1.4")
  else if includesS l "great" || includesS l "excellent" ||
          includesS l "wonderful" || includesS l "perfect" ||
          includesS l "amazing" then ("excited", "1.3")
  else ("friendly", "1.2")

/-- The classifier as an ordered rule table: the same categories, in source
order (greeting, weather, scheduling, reminder, suggestion, offer-of-help,
enthusiasm), each with its predicate and `(style, degree)`. -/
def styleRules : List ((String → Bool) × String × String) :=
  [ (fun l => includesS l "good morning" || includesS l "hello" ||
       includesS l "have a great" || includesS l "wishing you" ||
       includesS l "hope you" || includesS l "enjoy", "cheerful", "1.4"),
    (fun l => includesS l "weather" || includesS l "temperature" ||
       includesS l "rain" || includesS l "cloudy" ||
       includesS l "sunny" || includesS l "degrees", "friendly", "1.2"),
    (fun l => includesS l "schedule" || includesS l "appointment" ||
       includesS l "meeting" || includesS l "office" ||
       includesS l "plan to leave" ||
       (includesS l "time" && (includesS l "am" || includesS l "pm")), "assistant", "1.1"),
    (fun l => includesS l "remember" || includesS l "don\x27t forget" ||
       includesS l "make sure" || includesS l "important" ||
       includesS l "please" || includesS l "should", "empathetic", "1.3"),
    (fun l => includesS l "suggest" || includesS l "recommend" ||
       includesS l "might" || includesS l "consider" ||
       includesS l "try", "hopeful", "1.2"),
    (fun l => includesS l "let me know" || includesS l "if you need" ||
       includesS l "help" || includesS l "anything else" ||
       includesS l "feel free", "friendly", "1.4"),
    (fun l => includesS l "great" || includesS l "excellent" ||
       includesS l "wonderful" || includesS l "perfect" ||
       includesS l "amazing", "excited", "1.3") ]

/-- First matching rule wins; if no category matches, the default style is
`("friendly", "1.2")`. -/
def firstMatchStyle : List ((String → Bool) × String × String) → String → String × String
  | [], _ => ("friendly", "1.2")
  | (p, s, d) :: rest, l => if p l then (s, d) else firstMatchStyle rest l

/-- `speakReceivedMessageWithDynamicStyles`: split into sentences, re-append a
final period when the trimmed sentence does not already end in punctuation,
and classify each sentence by `styleFor` on its lower-cased form. -/
def dynamicStyleParts (text : String) : List StyledPart :=
  (sentencesOf text).map (fun sentence =>
    let trimmedSentence := trimS sentence
    let finalSentence :=
      if endsWithSentencePunct trimmedSentence then trimmedSentence
      else trimmedSentence ++ "."
    let sd := styleFor (lowerS trimmedSentence)
    ⟨finalSentence, sd.1, sd.2⟩)

/-! ### `speakMessage` (VoiceChatSimple.tsx lines 578-702): cloud TTS with
browser-local fallback -/

/-- A browser `SpeechSynthesisVoice` (only its name is inspected). -/
structure Voice where
  name : String
deriving DecidableEq, Repr

inductive SpeakAction where
  | cloudSynthesize (ssml : String)
  | localCancel
  | localSpeak (text : String) (voiceName : Option String)
  | logNoSynthesis
deriving DecidableEq, Repr

/-- `voices.find(...)`: the feminine-marker voice heuristic of the fallback
path (lines 677-683). -/
def findFemaleVoice (voices : List Voice) : Option Voice :=
  voices.find? (fun v =>
    includesS v.name "Samantha" || includesS v.name "Karen" ||
    includesS v.name "Female" || includesS v.name "Susan" ||
    includesS (lowerS v.name) "female")

/-- The SSML document of the primary path (whitespace normalised). -/
def ssmlFor (text : String) : String :=
  "<speak version=\"1.0\" xmlns=\"http://www.w3.org/2001/10/synthesis\" xmlns:mstts=\"https://www.w3.org/2001/mstts\" xml:lang=\"en-US\"><voice name=\"en-US-JennyNeural\"><mstts:express-as style=\"friendly\" styledegree=\"1.3\">"
    ++ text ++ "</mstts:express-as></voice></speak>"

/-- The `catch` block of `speakMessage`: browser TTS fallback.
`speechSynthesisVoices = none` models a browser without
`window.speechSynthesis`; otherwise it carries `getVoices()`. -/
def localFallback (speechSynthesisVoices : Option (List Voice)) (text : String) :
    List SpeakAction × Except String Unit :=
  match speechSynthesisVoices with
  | some voices =>
    ([SpeakAction.localCancel,
      SpeakAction.localSpeak text ((findFemaleVoice voices).map Voice.name)], .ok ())
  | none => ([SpeakAction.logNoSynthesis], .ok ())

/-- `speakMessage`: the dynamic SDK import result, the
`VITE_AZURE_SPEECH_KEY` / `VITE_AZURE_SPEECH_REGION` environment values and
the browser synthesis engine are passed as parameters.  A falsy key or region
throws `Azure Speech Service configuration not found`, which the surrounding
`catch` turns into the local fallback; cloud synthesis failures are delivered
through the `speakSsmlAsync` callbacks and never reach the `catch`. -/
def speakMessage (sdkImport : Except String Unit) (speechKey serviceRegion : Option String)
    (speechSynthesisVoices : Option (List Voice)) (text : String) :
    List SpeakAction × Except String Unit :=
  match sdkImport with
  | .error _ => localFallback speechSynthesisVoices text
  | .ok _ =>
    if !(strTruthy speechKey) || !(strTruthy serviceRegion) then
      localFallback speechSynthesisVoices text
    else
      ([SpeakAction.cloudSynthesize (ssmlFor text)], .ok ())

/-! ### The VoiceChatSimple component state and handlers -/

/-- An `AIMessage` chat entry (timestamps as epoch milliseconds). -/
structure ChatMessage where
  id : String
  text : String
  sender : String
  timestamp : Nat
  isAudio : Bool
  processing : Bool
deriving DecidableEq, Repr

/-- `lastProcessedRef.current`. -/
structure LastProcessed where
  text : String
  timestamp : Nat
deriving DecidableEq, Repr

/-- `connectionStateRef.current`. -/
structure ConnStateRecord where
  isConnected : Bool
  lastUpdate : Nat
deriving DecidableEq, Repr

/-- The component's mutable state: React state plus refs.  `recognition`
models `recognitionRef.current` (presence of an engine instance);
`pendingRestart` models a scheduled `setTimeout` restart from
`recognition.onend`. -/
structure ChatState where
  messages : List ChatMessage
  isRecording : Bool
  isTranscribing : Bool
  isInitializing : Bool
  recognition : Option Unit
  pendingRestart : Bool
  lastProcessed : Option LastProcessed
  connectionStateRef : ConnStateRecord
  isAwaitingDailyActivities : Bool
deriving DecidableEq, Repr

def initialChatState : ChatState :=
  ⟨[], false, false, false, none, false, none, ⟨false, 0⟩, false⟩

/-- The connection flags the component reads from the WebPubSub hook. -/
structure HookView where
  isConnected : Bool
  isConnecting : Bool
  connectionError : Option String
deriving DecidableEq, Repr

/-- External actions emitted by the component's handlers. -/
inductive Action where
  | sendAttempt (group message dataType : String)
  | speak (text : String)
  | toastError (m : String)
  | toastInfo (m : String)
  | toastSuccess (m : String)
  | engineStart
  | engineStop
deriving DecidableEq, Repr

def isSendAttempt : Action → Bool
  | .sendAttempt _ _ _ => true
  | _ => false

/-- The duplicate-transcript guard of `processTranscript` (lines 450-455):
reject when the trimmed transcript equals the recorded text and less than
2000 ms have elapsed. -/
def dupGuard (lp : Option LastProcessed) (transcript : String) (now : Nat) : Bool :=
  match lp with
  | some last => trimS transcript == last.text && decide (now - last.timestamp < 2000)
  | none => false

/-- The optimistic local user message (lines 466-473). -/
def userMessageOf (now : Nat) (transcript : String) : ChatMessage :=
  ⟨Nat.repr now, transcript, "user", now, false, false⟩

/-- The voice-send confirmation message (lines 531-538); `rand` stands for the
`Math.random()` id suffix. -/
def sentMessageOf (sendNow : Nat) (rand : String) (transcript : String) : ChatMessage :=
  ⟨"sent-" ++ Nat.repr sendNow ++ "-" ++ rand, transcript, "user", sendNow, true, false⟩

/-- `processTranscript` (lines 442-575).  `hook` carries the hook's connection
flags, `sendResult` the outcome of awaiting `sendToGroup`, `now` the value of
`Date.now()` in the synchronous block before the send (guard line 449,
connection check line 488) and `sendNow` its value after the send resolves
(lines 532, 551).  The sequential state updates of the source are composed
into the final state of each branch:
* empty trimmed transcript: return unchanged (line 443);
* duplicate within 2 s: return unchanged (lines 450-455);
* otherwise record `(trim, now)` (line 458) and append the optimistic user
  message (line 475);
* genuinely disconnected with no 5-second grace: toast a "not connected"
  error and stop (lines 496-511, `finally` clears `isTranscribing`);
* else attempt the send; on success append the sent message, raise the
  good-morning flag and re-record the echo marker `(transcript, sendNow)`
  (lines 527-554); on failure toast the error, rolling nothing back
  (lines 556-567). -/
def processTranscript (st : ChatState) (hook : HookView) (sendResult : Except String Unit)
    (now sendNow : Nat) (rand : String) (transcript : String) : ChatState × List Action :=
  if trimS transcript == "" then (st, [])
  else if dupGuard st.lastProcessed transcript now then (st, [])
  else if !(hook.isConnected || st.connectionStateRef.isConnected)
          && !(decide (now - st.connectionStateRef.lastUpdate < 5000)) then
    ({ st with lastProcessed := some ⟨trimS transcript, now⟩,
               messages := st.messages ++ [userMessageOf now transcript],
               isTranscribing := false },
     [Action.toastError "Not connected to WebPubSub. Please wait for connection and try again."])
  else
    match sendResult with
    | .ok _ =>
      ({ st with lastProcessed := some ⟨transcript, sendNow⟩,
                 messages := st.messages ++ [userMessageOf now transcript,
                                             sentMessageOf sendNow rand transcript],
                 isAwaitingDailyActivities :=
                   if includesS (lowerS transcript) "good morning" then true
                   else st.isAwaitingDailyActivities,
                 isTranscribing := false },
       [Action.sendAttempt "cortana-users" transcript "text",
        Action.toastSuccess "Voice message sent!"])
    | .error e =>
      ({ st with lastProcessed := some ⟨trimS transcript, now⟩,
                 messages := st.messages ++ [userMessageOf now transcript],
                 isTranscribing := false },
       [Action.sendAttempt "cortana-users" transcript "text",
        Action.toastError ("Failed to send voice message: " ++ e)])

/-! ### Inbound group messages (`handleWebSocketMessage`, lines 111-198) -/

/-- A group-message payload.  `pstr` is a raw string payload; `pobj` is an
already-structured payload whose `message` / `data` / `text` fields (when
string-valued) are modelled. -/
inductive Payload where
  | pstr (s : String)
  | pobj (messageField dataField textField : Option String)
deriving DecidableEq, Repr

/-- JS truthiness of the payload itself (`message.payload &&`). -/
def payloadTruthy : Payload → Bool
  | .pstr s => !(s == "")
  | .pobj _ _ _ => true

/-- The value of `message.payload.message || message.payload.data ||
message.payload` (line 119). -/
inductive MessageData where
  | mdStr (s : String)
  | mdObj (dataField textField : Option String)
deriving DecidableEq, Repr

def extractMessageData : Payload → MessageData
  | .pstr s => .mdStr s
  | .pobj m d t =>
    if strTruthy m then .mdStr (m.getD "")
    else if strTruthy d then .mdStr (d.getD "")
    else .mdObj d t

/-- The result of `JSON.parse(messageData)` when `messageData` is a string:
`none` when parsing throws, otherwise the string-valued `data` / `text`
fields of the parsed envelope. -/
structure Envelope where
  dataField : Option String
  textField : Option String
deriving DecidableEq, Repr

/-- The echo-suppression check (lines 122-129): `messageData` is a string
equal to the recorded text and arrived within 10 000 ms of `sentAt`. -/
def echoMatch (lp : Option LastProcessed) (s : String) (now : Nat) : Bool :=
  match lp with
  | some last => s == last.text && decide (now - last.timestamp < 10000)
  | none => false

/-- The additional "looks like user input" filter (lines 131-138). -/
def likelyUserGreeting (s : String) : Bool :=
  decide (s.length < 100) &&
    (includesS (lowerS s) "good morning" || includesS (lowerS s) "hello" ||
     includesS (lowerS s) "hi there")

/-- Text extraction for a string `messageData` (lines 141-157). -/
def extractStringText (parseResult : Option Envelope) (s : String) : String :=
  match parseResult with
  | some p =>
    if strTruthy p.dataField then p.dataField.getD ""
    else if strTruthy p.textField then p.textField.getD ""
    else s
  | none => s

/-- The inbound `DirectWebPubSubMessage` as the handler sees it. -/
structure WSMessage where
  type : String
  payload : Option Payload
  msgId : Option String
  msgTimestamp : Option Nat
deriving DecidableEq, Repr

/-- The received `ChatMessage` (lines 168-175): `message.id || generated`,
`new Date(message.timestamp || Date.now())`; `rand` stands for the random id
suffix. -/
def receivedMessageOf (now : Nat) (rand : String) (msg : WSMessage) (text : String) :
    ChatMessage :=
  ⟨(match msg.msgId with
    | some i => if i == "" then "received-" ++ Nat.repr now ++ "-" ++ rand else i
    | none => "received-" ++ Nat.repr now ++ "-" ++ rand),
   text, "cortana",
   (match msg.msgTimestamp with
    | some t => if t == 0 then now else t
    | none => now),
   false, false⟩

/-- Lines 177-192: append the received message, speak it, and toast (clearing
the daily-activities flag when it was set). -/
def deliverInbound (st : ChatState) (now : Nat) (rand : String) (msg : WSMessage)
    (text : String) : ChatState × List Action :=
  if st.isAwaitingDailyActivities then
    ({ st with messages := st.messages ++ [receivedMessageOf now rand msg text],
               isAwaitingDailyActivities := false },
     [Action.speak text, Action.toastSuccess "Daily activities received!"])
  else
    ({ st with messages := st.messages ++ [receivedMessageOf now rand msg text] },
     [Action.speak text, Action.toastInfo "New message received!"])

/-- `handleWebSocketMessage` (lines 111-198).  `parseResult` is the outcome of
`JSON.parse` on this message's string data, `stringifyObj` the value of
`JSON.stringify(messageData)` for the structured case. -/
def handleWebSocketMessage (st : ChatState) (now : Nat) (parseResult : Option Envelope)
    (stringifyObj rand : String) (msg : WSMessage) : ChatState × List Action :=
  match msg.payload with
  | none => (st, [])
  | some p =>
    if msg.type == "group-message" && payloadTruthy p then
      match extractMessageData p with
      | .mdStr s =>
        if echoMatch st.lastProcessed s now then (st, [])
        else if likelyUserGreeting s then (st, [])
        else deliverInbound st now rand msg (extractStringText parseResult s)
      | .mdObj d t =>
        let text := if strTruthy d then d.getD ""
                    else if strTruthy t then t.getD ""
                    else stringifyObj
        deliverInbound st now rand msg text
    else (st, [])

/-! ### Capture lifecycle (`recognition.onend`, `stopRecording`,
lines 388-440) -/

/-- `recognition.onend`: when `isRecording && !isInitializingRef.current`,
schedule a delayed restart (`setTimeout(..., 100)`); otherwise clear the
capture flags.  The `isRecording` the closure reads is NOT the live state: it
is the render-scoped const captured when `startRecording` ran
(`capturedIsRecording`), and since the button invokes `startRecording` only
from a render where `isRecording` is false (line 966) and `setIsRecording(true)`
cannot change the already-captured binding, every installed handler captures
`false`.  `isInitializingRef` is a ref and is read live. -/
def recognitionOnEnd (capturedIsRecording : Bool) (st : ChatState) :
    ChatState × List Action :=
  if capturedIsRecording && !st.isInitializing then
    ({ st with pendingRestart := true }, [])
  else
    ({ st with isRecording := false, isTranscribing := false, isInitializing := false },
     [Action.toastInfo "Stopped listening"])

/-- The scheduled restart firing: start the engine only if
`recognitionRef.current && isRecording` still holds (lines 395-400).
`recognitionRef` is a live ref; `isRecording` is the same closure-captured
render-scoped const as in `recognitionOnEnd`. -/
def restartTimerFires (capturedIsRecording : Bool) (st : ChatState) :
    ChatState × List Action :=
  if st.pendingRestart then
    if st.recognition.isSome && capturedIsRecording then
      ({ st with pendingRestart := false }, [Action.engineStart])
    else ({ st with pendingRestart := false }, [])
  else (st, [])

/-- `stopRecording` (lines 430-440): stop and release the engine, clear the
capture flags.  The pending restart timer is not cancelled; only its
recheck suppresses it. -/
def stopRecording (st : ChatState) : ChatState × List Action :=
  ({ st with recognition := none, isRecording := false,
             isTranscribing := false, isInitializing := false },
   if st.recognition.isSome then [Action.engineStop] else [])

/-! ### The `useDirectWebPubSubClient` hook (second file of
src/unnamed/part_003) -/

/-- The hook's mutable state.  `client` models `clientRef.current` and
`stateClient` the `client` React state (abstract client instances are
numbered). -/
structure HookState where
  client : Option Nat
  stateClient : Option Nat
  isConnected : Bool
  isConnecting : Bool
  connectionError : Option String
  isManualDisconnect : Bool
deriving DecidableEq, Repr

def initialHookState : HookState := ⟨none, none, false, false, none, false⟩

structure HookConfig where
  clientUrl : Option String
  groups : List String
deriving DecidableEq, Repr

/-- The outcome of the external steps of a connection attempt: the
`WebPubSubClient` constructor may throw (before `clientRef.current` is set),
or `client.start()` may reject (after it is set), or start succeeds. -/
inductive ConnectOutcome where
  | ctorThrows (msg : String)
  | startThrows (msg : String)
  | startOk
deriving DecidableEq, Repr

inductive HookAction where
  | clientStart (c : Nat)
  | joinGroup (c : Nat) (g : String)
  | mockSend (group message dataType : String)
  | netSendToGroup (c : Nat) (group message dataType : String)
  | netSendEvent (c : Nat) (group message dataType : String)
  | onErrorCallback (msg : String)
deriving DecidableEq, Repr

/-- `errorMessage.includes('Authentication failed') ||
errorMessage.includes('no valid credentials')` (line 280 of the hook). -/
def authFailureMsg (m : String) : Bool :=
  includesS m "Authentication failed" || includesS m "no valid credentials"

/-- `errorMessage.includes('Insufficient resources') || ...` (line 294). -/
def capacityMsg (m : String) : Bool :=
  includesS m "Insufficient resources" || includesS m "insufficient resources"

/-- The `catch` block of `connectInternal` (lines 259-307): auth and capacity
failures enter the simulated-connected development mode (`setIsConnected(true)`
without touching the client reference); any other failure records the error
and reports it via `onError`. -/
def handleConnectFailure (st : HookState) (errorMessage : String) :
    HookState × List HookAction :=
  if authFailureMsg errorMessage then
    ({ st with connectionError :=
                 some "WebPubSub requires authentication. Running in development mode.",
               isConnected := true, isConnecting := false }, [])
  else if capacityMsg errorMessage then
    ({ st with connectionError :=
                 some "Azure Web PubSub service is at capacity. Running in development mode.",
               isConnected := true, isConnecting := false }, [])
  else
    ({ st with connectionError := some errorMessage, isConnecting := false },
     [HookAction.onErrorCallback errorMessage])

/-- `connectInternal` (lines 134-308).  Already connecting or connected is a
no-op; a missing client URL throws before any client is created; otherwise a
client is created and `clientRef.current` is set before `start()` is awaited,
so a `start()` failure leaves the reference in place. -/
def connectInternal (st : HookState) (cfg : HookConfig) (outcome : ConnectOutcome)
    (newClient : Nat) : HookState × List HookAction :=
  if st.isConnecting || st.isConnected then (st, [])
  else
    let st1 := { st with isConnecting := true, connectionError := none,
                         isManualDisconnect := false }
    match cfg.clientUrl with
    | none =>
      handleConnectFailure st1
        "Client URL with JWT token is required. Please provide VITE_WEBPUBSUB_CLIENT_URL"
    | some _ =>
      match outcome with
      | .ctorThrows m => handleConnectFailure st1 m
      | .startThrows m =>
        handleConnectFailure
          { st1 with client := some newClient, stateClient := some newClient } m
      | .startOk =>
        ({ st1 with client := some newClient, stateClient := some newClient },
         [HookAction.clientStart newClient])

/-- The `connected` event handler (lines 179-198): mark connected and
auto-join the configured groups. -/
def onConnectedEvent (st : HookState) (cfg : HookConfig) : HookState × List HookAction :=
  ({ st with isConnected := true, isConnecting := false, connectionError := none },
   match st.client with
   | some c => cfg.groups.map (fun g => HookAction.joinGroup c g)
   | none => [])

/-- The `disconnected` event handler (lines 200-208): no auto-reconnect. -/
def onDisconnectedEvent (st : HookState) : HookState :=
  { st with isConnected := false, isConnecting := false,
            connectionError := some "Connection lost. Manual reconnection required." }

/-- The `stopped` event handler (lines 210-216): release the client. -/
def onStoppedEvent (st : HookState) : HookState :=
  { st with isConnected := false, isConnecting := false,
            client := none, stateClient := none }

/-- Which send method the duck-typed capability probe finds on the client
(lines 370-388). -/
inductive SendMethod
  | hasSendToGroup
  | hasSendEventOnly
  | neither
deriving DecidableEq, Repr

/-- The hook's `sendToGroup` (lines 345-394).  With no client reference the
mock path logs and returns successfully without any network call; with a
client the send is attempted on it (`netResult` is its outcome, rethrown on
failure); with no usable send method an error is thrown. -/
def hookSendToGroup (st : HookState) (method : SendMethod) (netResult : Except String Unit)
    (group message dataType : String) : List HookAction × Except String Unit :=
  match st.client with
  | none => ([HookAction.mockSend group message dataType], .ok ())
  | some c =>
    match method with
    | .hasSendToGroup => ([HookAction.netSendToGroup c group message dataType], netResult)
    | .hasSendEventOnly => ([HookAction.netSendEvent c group message dataType], netResult)
    | .neither => ([], .error "No send method available on WebPubSub client")

/-! ### The spec's claimed send-permissibility predicate (for claim C4)

The specification claims a send is permissible "if either the primary state
says connected OR the side record says connected within a short recency
window (≈5s)".  This definition follows the spec's words, to be compared with
the condition actually evaluated by `processTranscript`. -/

def specSendPermissible (hook : HookView) (st : ChatState) (now : Nat) : Bool :=
  hook.isConnected ||
    (st.connectionStateRef.isConnected &&
     decide (now - st.connectionStateRef.lastUpdate < 5000))

/-! ## Theorems -/

/-- C5: On the input "Good morning! The weather is sunny." the per-sentence
style classifier produces exactly two styled segments, the first with style
`cheerful` and the second with style `friendly`; and the classification of
every sentence is the first matching rule of the fixed ordered category table
(greeting, weather, scheduling, reminder, suggestion, offer-of-help,
enthusiasm), defaulting to `friendly`. -/
theorem C5_style_classifier :
    dynamicStyleParts "Good morning! The weather is sunny." =
      [⟨"Good morning.", "cheerful", "1.4"⟩, ⟨"The weather is sunny.", "friendly", "1.2"⟩]
    ∧ ∀ l : String, styleFor l = firstMatchStyle styleRules l :=
  ⟨rfl, fun _ => rfl⟩

/-- C6: For every text and every available voice list, when the cloud TTS
credentials (speech key or region) are absent (falsy), `speakMessage`
completes without an uncaught error (`.ok ()`) and takes the browser-local
fallback path, choosing the feminine-marker voice when one exists and
otherwise the default voice (`none`). -/
theorem C6_local_fallback (sdkImport : Except String Unit)
    (speechKey serviceRegion : Option String) (voices : List Voice) (text : String)
    (hcred : (!(strTruthy speechKey) || !(strTruthy serviceRegion)) = true) :
    speakMessage sdkImport speechKey serviceRegion (some voices) text =
      ([SpeakAction.localCancel,
        SpeakAction.localSpeak text ((findFemaleVoice voices).map Voice.name)], .ok ()) := by
  cases sdkImport with
  | error e => rfl
  | ok u => simp [speakMessage, localFallback, hcred]

/-- Witness for C6: no speech key, one feminine-named local voice. -/
theorem C6_local_fallback_witness :
    speakMessage (.ok ()) none (some "eastus") (some [⟨"Samantha"⟩]) "hello" =
      ([SpeakAction.localCancel, SpeakAction.localSpeak "hello" (some "Samantha")], .ok ()) := by
  rw [C6_local_fallback (.ok ()) none (some "eastus") [⟨"Samantha"⟩] "hello" rfl]
  rfl

/-- C7: `connect()` while already connecting or connected performs no new
connection attempt (no actions) and leaves the whole hook state — connection
flags, client reference and error state — unchanged. -/
theorem C7_connect_idempotent (st : HookState) (cfg : HookConfig)
    (outcome : ConnectOutcome) (newClient : Nat)
    (h : st.isConnecting = true ∨ st.isConnected = true) :
    connectInternal st cfg outcome newClient = (st, []) := by
  unfold connectInternal
  rcases h with h | h <;> simp [h]

/-- Witness for C7: a connecting hook state. -/
theorem C7_connect_idempotent_witness :
    connectInternal { initialHookState with isConnecting := true }
        ⟨some "wss://hub", ["cortana-users"]⟩ .startOk 1
      = ({ initialHookState with isConnecting := true }, []) :=
  C7_connect_idempotent _ _ _ _ (Or.inl rfl)

/-- C8 (code bug): every `onend` closure and restart timer the program
installs captured `isRecording = false` (the only value a render that can
invoke `startRecording` has), so when the engine reports end-of-session
while the live state is genuinely listening (recording, not initializing,
engine present), the handler takes the "Stopped listening" branch — the live
recording flag is cleared, no restart is scheduled — and the timer recheck
can never emit an engine start in any state: the listening → listening
self-transition the claim (and spec §4.2/§5) describes never happens. -/
theorem C8_restart_never_fires (st : ChatState)
    (h1 : st.isRecording = true) (h2 : st.isInitializing = false)
    (h3 : st.recognition = some ()) :
    (recognitionOnEnd false st).2 = [Action.toastInfo "Stopped listening"]
    ∧ (recognitionOnEnd false st).1.isRecording = false
    ∧ (recognitionOnEnd false st).1.pendingRestart = st.pendingRestart
    ∧ ∀ st2 : ChatState, (restartTimerFires false st2).2 = [] := by
  refine ⟨rfl, rfl, rfl, fun st2 => ?_⟩
  unfold restartTimerFires
  split
  · simp
  · rfl

/-- Witness for C8: a genuinely listening live state whose installed handler
captured `isRecording = false`. -/
theorem C8_restart_never_fires_witness :
    (recognitionOnEnd false { initialChatState with isRecording := true, recognition := some () }).2
        = [Action.toastInfo "Stopped listening"]
    ∧ (recognitionOnEnd false { initialChatState with isRecording := true, recognition := some () }).1.isRecording
        = false
    ∧ (recognitionOnEnd false { initialChatState with isRecording := true, recognition := some () }).1.pendingRestart
        = { initialChatState with isRecording := true, recognition := some () }.pendingRestart
    ∧ ∀ st2 : ChatState, (restartTimerFires false st2).2 = [] :=
  C8_restart_never_fires { initialChatState with isRecording := true, recognition := some () }
    rfl rfl rfl

/-- C9: every inbound group message whose payload is a string shorter than
100 characters whose lowercase form contains "good morning", "hello" or
"hi there" is discarded — state unchanged, nothing appended, nothing spoken —
for every echo-guard state and arrival time. -/
theorem C9_greeting_discard (st : ChatState) (now : Nat) (parseResult : Option Envelope)
    (stringifyObj rand : String) (mid : Option String) (mts : Option Nat) (s : String)
    (h : likelyUserGreeting s = true) :
    handleWebSocketMessage st now parseResult stringifyObj rand
      ⟨"group-message", some (.pstr s), mid, mts⟩ = (st, []) := by
  by_cases hs : s = ""
  · subst hs; rfl
  · have hs' : (s == "") = false := by simp [hs]
    simp [handleWebSocketMessage, payloadTruthy, extractMessageData, hs', h]

/-- Witness for C9: the literal message "hello" with an empty echo guard. -/
theorem C9_greeting_discard_witness :
    handleWebSocketMessage initialChatState 0 none "" "r"
      ⟨"group-message", some (.pstr "hello"), none, none⟩ = (initialChatState, []) :=
  C9_greeting_discard initialChatState 0 none "" "r" none none "hello" rfl

/-- Counterexample to C2 as stated: the inbound string "hello" neither equals
the echo guard's text ("xyz") nor arrives within 10 seconds of it, yet it is
not appended to the Message Log and not spoken (the greeting filter discards
it), refuting "every inbound group message not meeting both conditions is
appended … and dispatched to speech synthesis". -/
theorem C2_counterexample :
    handleWebSocketMessage { initialChatState with lastProcessed := some ⟨"xyz", 0⟩ }
        50000 none "" "r" ⟨"group-message", some (.pstr "hello"), none, none⟩
      = ({ initialChatState with lastProcessed := some ⟨"xyz", 0⟩ }, [])
    ∧ echoMatch (some ⟨"xyz", 0⟩) "hello" 50000 = false :=
  ⟨rfl, rfl⟩

/-- Counterexample to C3 as stated: when the initial connection attempt fails
in `start()` with "Authentication failed", the hook reports itself connected,
but the client reference was already set, so a subsequent send does NOT take
the no-op mock path: it invokes the network client (and here propagates the
client's failure instead of returning successfully). -/
theorem C3_counterexample :
    (connectInternal initialHookState ⟨some "wss://hub", ["cortana-users"]⟩
        (.startThrows "Authentication failed") 1).1.isConnected = true
    ∧ hookSendToGroup
        (connectInternal initialHookState ⟨some "wss://hub", ["cortana-users"]⟩
          (.startThrows "Authentication failed") 1).1
        .hasSendToGroup (.error "WebSocket is not connected") "cortana-users" "hi" "text"
      = ([HookAction.netSendToGroup 1 "cortana-users" "hi" "text"],
         .error "WebSocket is not connected") :=
  ⟨rfl, rfl⟩

/-- Counterexample to C4 as stated: primary state disconnected, side record
disconnected but updated 1 second ago.  The claim's condition (primary
connected, or side record connected within the 5-second window) is false, so
the claim demands rejection with no send — yet `processTranscript` attempts
the send (the recency of the side-record update alone suffices). -/
theorem C4_counterexample :
    specSendPermissible ⟨false, false, none⟩
        { initialChatState with connectionStateRef := ⟨false, 1000⟩ } 2000 = false
    ∧ (((processTranscript { initialChatState with connectionStateRef := ⟨false, 1000⟩ }
          ⟨false, false, none⟩ (.ok ()) 2000 2100 "r" "hi").2.filter isSendAttempt).length) = 1 :=
  ⟨rfl, rfl⟩

/-! ### Helper lemmas about `processTranscript` (shared by several claims) -/

/-- A transcript caught by the duplicate guard is rejected before any
processing: state unchanged, no actions. -/
theorem processTranscript_dup (st : ChatState) (hook : HookView) (res : Except String Unit)
    (now sendNow : Nat) (rand T : String)
    (hne : (trimS T == "") = false) (hdup : dupGuard st.lastProcessed T now = true) :
    processTranscript st hook res now sendNow rand T = (st, []) := by
  unfold processTranscript
  simp [hne, hdup]

/-- A transcript that passes the guard always leaves the last-dispatched
marker at `(trim T, now)` (failure or rejection paths) or `(T, sendNow)`
(successful send). -/
theorem processTranscript_lastProcessed (st : ChatState) (hook : HookView)
    (res : Except String Unit) (now sendNow : Nat) (rand T : String)
    (hne : (trimS T == "") = false) (hguard : dupGuard st.lastProcessed T now = false) :
    (processTranscript st hook res now sendNow rand T).1.lastProcessed = some ⟨trimS T, now⟩
    ∨ (processTranscript st hook res now sendNow rand T).1.lastProcessed = some ⟨T, sendNow⟩ := by
  unfold processTranscript
  simp only [hne, hguard, Bool.false_eq_true, if_false]
  split
  · left; rfl
  · split
    · right; rfl
    · left; rfl

/-- A single `processTranscript` call emits at most one outbound send and
appends at most two messages. -/
theorem processTranscript_growth (st : ChatState) (hook : HookView)
    (res : Except String Unit) (now sendNow : Nat) (rand T : String) :
    ((processTranscript st hook res now sendNow rand T).2.filter isSendAttempt).length ≤ 1
    ∧ (processTranscript st hook res now sendNow rand T).1.messages.length
        ≤ st.messages.length + 2 := by
  unfold processTranscript
  split
  · simp
  · split
    · simp
    · split
      · simp [isSendAttempt]
      · split
        · constructor
          · simp [isSendAttempt]
          · simp
        · constructor
          · simp [isSendAttempt]
          · simp

/-- C1: submitting the same (already trimmed) transcript a second time while
less than 2 seconds have elapsed since the first dispatch is rejected before
any processing (the state after the second submission equals the state after
the first, and the second submission emits no action), so the two submissions
together produce at most one outbound send and at most one pair of appended
chat messages. -/
theorem C1_duplicate_rejected (st : ChatState) (hook hook2 : HookView)
    (res res2 : Except String Unit) (now sendNow now2 sendNow2 : Nat)
    (rand rand2 T : String)
    (hT : trimS T = T) (hne : (T == "") = false)
    (hguard : dupGuard st.lastProcessed T now = false)
    (hmono : now ≤ sendNow) (hwin : now2 - now < 2000) :
    processTranscript (processTranscript st hook res now sendNow rand T).1
        hook2 res2 now2 sendNow2 rand2 T
      = ((processTranscript st hook res now sendNow rand T).1, [])
    ∧ ((processTranscript st hook res now sendNow rand T).2.filter isSendAttempt).length ≤ 1
    ∧ (processTranscript st hook res now sendNow rand T).1.messages.length
        ≤ st.messages.length + 2 := by
  have hne' : (trimS T == "") = false := by rw [hT]; exact hne
  have hdup : dupGuard (processTranscript st hook res now sendNow rand T).1.lastProcessed
      T now2 = true := by
    rcases processTranscript_lastProcessed st hook res now sendNow rand T hne' hguard with h | h
    · rw [h]; simp [dupGuard, hwin]
    · rw [h]; simp [dupGuard, hT]
      exact lt_of_le_of_lt (Nat.sub_le_sub_left hmono now2) hwin
  exact ⟨processTranscript_dup _ hook2 res2 now2 sendNow2 rand2 T hne' hdup,
         (processTranscript_growth st hook res now sendNow rand T).1,
         (processTranscript_growth st hook res now sendNow rand T).2⟩

/-- Witness for C1: transcript "hi" submitted at t=1000 and again at t=2000
with a successful send in between. -/
theorem C1_duplicate_rejected_witness :
    processTranscript (processTranscript initialChatState ⟨true, false, none⟩ (.ok ())
        1000 1100 "a" "hi").1 ⟨true, false, none⟩ (.ok ()) 2000 2100 "b" "hi"
      = ((processTranscript initialChatState ⟨true, false, none⟩ (.ok ())
            1000 1100 "a" "hi").1, [])
    ∧ ((processTranscript initialChatState ⟨true, false, none⟩ (.ok ())
          1000 1100 "a" "hi").2.filter isSendAttempt).length ≤ 1
    ∧ (processTranscript initialChatState ⟨true, false, none⟩ (.ok ())
          1000 1100 "a" "hi").1.messages.length ≤ initialChatState.messages.length + 2 :=
  C1_duplicate_rejected initialChatState ⟨true, false, none⟩ ⟨true, false, none⟩
    (.ok ()) (.ok ()) 1000 1100 2000 2100 "a" "b" "hi"
    rfl rfl rfl (by decide) (by decide)

/-- C4 (amended): a transcript send is attempted exactly when the primary
state says connected, OR the side record says connected (regardless of its
age), OR the side record was updated within the 5-second window (regardless
of what it says); otherwise the transcript is rejected with the explicit
"not connected" error and no send is attempted. -/
theorem C4_amended (st : ChatState) (hook : HookView) (res : Except String Unit)
    (now sendNow : Nat) (rand T : String)
    (hne : (trimS T == "") = false)
    (hguard : dupGuard st.lastProcessed T now = false) :
    (((processTranscript st hook res now sendNow rand T).2.filter isSendAttempt).length = 1
      ↔ (hook.isConnected || st.connectionStateRef.isConnected
          || decide (now - st.connectionStateRef.lastUpdate < 5000)) = true)
    ∧ ((hook.isConnected || st.connectionStateRef.isConnected
          || decide (now - st.connectionStateRef.lastUpdate < 5000)) = false →
        (processTranscript st hook res now sendNow rand T).2 =
          [Action.toastError
            "Not connected to WebPubSub. Please wait for connection and try again."]) := by
  unfold processTranscript
  cases ha : hook.isConnected <;> cases hb : st.connectionStateRef.isConnected <;>
    cases hc : decide (now - st.connectionStateRef.lastUpdate < 5000) <;>
      cases res <;> simp [hne, hguard, ha, hb, hc, isSendAttempt]

/-- Witness for C4 (amended): a connected hook state with a successful send. -/
theorem C4_amended_witness :
    (((processTranscript initialChatState ⟨true, false, none⟩ (.ok ())
          10000 10100 "r" "hi").2.filter isSendAttempt).length = 1
      ↔ ((true : Bool) || initialChatState.connectionStateRef.isConnected
          || decide (10000 - initialChatState.connectionStateRef.lastUpdate < 5000)) = true)
    ∧ (((true : Bool) || initialChatState.connectionStateRef.isConnected
          || decide (10000 - initialChatState.connectionStateRef.lastUpdate < 5000)) = false →
        (processTranscript initialChatState ⟨true, false, none⟩ (.ok ())
            10000 10100 "r" "hi").2 =
          [Action.toastError
            "Not connected to WebPubSub. Please wait for connection and try again."]) :=
  C4_amended initialChatState ⟨true, false, none⟩ (.ok ()) 10000 10100 "r" "hi" rfl rfl

/-- C10: processing is not atomic with respect to send failure.  When the
send fails, the optimistic local user message stays appended and the
last-dispatched marker stays at `(T, now)` — nothing is rolled back, the
voice-confirmation message is not appended, and the failure is surfaced as a
user-visible error; re-submitting the same trimmed transcript within 2
seconds is then rejected by the duplicate guard (state unchanged, no
actions). -/
theorem C10_nonatomic_failure (st : ChatState) (hook hook2 : HookView)
    (res2 : Except String Unit) (now sendNow now2 sendNow2 : Nat)
    (rand rand2 T e : String)
    (hT : trimS T = T) (hne : (T == "") = false)
    (hguard : dupGuard st.lastProcessed T now = false)
    (hconn : hook.isConnected = true) (hwin : now2 - now < 2000) :
    (processTranscript st hook (.error e) now sendNow rand T).1.messages
        = st.messages ++ [userMessageOf now T]
    ∧ (processTranscript st hook (.error e) now sendNow rand T).1.lastProcessed
        = some ⟨T, now⟩
    ∧ (processTranscript st hook (.error e) now sendNow rand T).2 =
        [Action.sendAttempt "cortana-users" T "text",
         Action.toastError ("Failed to send voice message: " ++ e)]
    ∧ processTranscript (processTranscript st hook (.error e) now sendNow rand T).1
        hook2 res2 now2 sendNow2 rand2 T
        = ((processTranscript st hook (.error e) now sendNow rand T).1, []) := by
  have hne' : (trimS T == "") = false := by rw [hT]; exact hne
  have hfirst : processTranscript st hook (.error e) now sendNow rand T
      = ({ st with lastProcessed := some ⟨trimS T, now⟩,
                   messages := st.messages ++ [userMessageOf now T],
                   isTranscribing := false },
         [Action.sendAttempt "cortana-users" T "text",
          Action.toastError ("Failed to send voice message: " ++ e)]) := by
    unfold processTranscript
    simp [hne', hguard, hconn]
  rw [hfirst]
  refine ⟨rfl, by simp [hT], rfl, ?_⟩
  exact processTranscript_dup _ hook2 res2 now2 sendNow2 rand2 T hne'
    (by simp [dupGuard, hwin])

/-- Witness for C10: transcript "hi" whose send fails, re-submitted 1 second
later. -/
theorem C10_nonatomic_failure_witness :
    (processTranscript initialChatState ⟨true, false, none⟩ (.error "boom")
        1000 1100 "a" "hi").1.messages
        = initialChatState.messages ++ [userMessageOf 1000 "hi"]
    ∧ (processTranscript initialChatState ⟨true, false, none⟩ (.error "boom")
        1000 1100 "a" "hi").1.lastProcessed = some ⟨"hi", 1000⟩
    ∧ (processTranscript initialChatState ⟨true, false, none⟩ (.error "boom")
        1000 1100 "a" "hi").2 =
        [Action.sendAttempt "cortana-users" "hi" "text",
         Action.toastError ("Failed to send voice message: " ++ "boom")]
    ∧ processTranscript (processTranscript initialChatState ⟨true, false, none⟩
        (.error "boom") 1000 1100 "a" "hi").1 ⟨true, false, none⟩ (.ok ())
        2000 2100 "b" "hi"
        = ((processTranscript initialChatState ⟨true, false, none⟩ (.error "boom")
              1000 1100 "a" "hi").1, []) :=
  C10_nonatomic_failure initialChatState ⟨true, false, none⟩ ⟨true, false, none⟩
    (.ok ()) 1000 1100 2000 2100 "a" "b" "hi" "boom" rfl rfl rfl rfl (by decide)

/-- C2 (amended): for an inbound group message whose payload is a non-empty
string `s`, the message is suppressed (state unchanged, nothing appended,
nothing spoken) if and only if `s` equals the echo guard's recorded text
within 10 seconds of the recorded send, OR `s` trips the likely-user-greeting
filter (shorter than 100 characters and containing "good morning", "hello" or
"hi there"); every other such message is appended to the Message Log and
dispatched to speech synthesis. -/
theorem C2_amended (st : ChatState) (now : Nat) (parseResult : Option Envelope)
    (stringifyObj rand : String) (mid : Option String) (mts : Option Nat) (s : String)
    (hs : (s == "") = false) :
    ((handleWebSocketMessage st now parseResult stringifyObj rand
        ⟨"group-message", some (.pstr s), mid, mts⟩ = (st, []))
      ↔ (echoMatch st.lastProcessed s now = true ∨ likelyUserGreeting s = true))
    ∧ (echoMatch st.lastProcessed s now = false → likelyUserGreeting s = false →
        (handleWebSocketMessage st now parseResult stringifyObj rand
            ⟨"group-message", some (.pstr s), mid, mts⟩).1.messages
          = st.messages ++ [receivedMessageOf now rand
              ⟨"group-message", some (.pstr s), mid, mts⟩ (extractStringText parseResult s)]
        ∧ Action.speak (extractStringText parseResult s) ∈
            (handleWebSocketMessage st now parseResult stringifyObj rand
              ⟨"group-message", some (.pstr s), mid, mts⟩).2) := by
  have hmain : handleWebSocketMessage st now parseResult stringifyObj rand
      ⟨"group-message", some (.pstr s), mid, mts⟩
      = if echoMatch st.lastProcessed s now then (st, [])
        else if likelyUserGreeting s then (st, [])
        else deliverInbound st now rand ⟨"group-message", some (.pstr s), mid, mts⟩
               (extractStringText parseResult s) := by
    unfold handleWebSocketMessage
    simp [payloadTruthy, extractMessageData, hs]
  rw [hmain]
  cases hecho : echoMatch st.lastProcessed s now
  · cases hgreet : likelyUserGreeting s
    · simp only [Bool.false_eq_true, if_false]
      constructor
      · constructor
        · intro hEq
          exfalso
          cases hAw : st.isAwaitingDailyActivities <;>
            simp [deliverInbound, hAw] at hEq
        · intro hOr
          rcases hOr with h | h <;> simp_all
      · intro _ _
        cases hAw : st.isAwaitingDailyActivities <;> simp [deliverInbound, hAw]
    · simp [hgreet]
  · simp [hecho]

/-- Witness for C2 (amended): a long non-greeting string with an empty echo
guard is delivered. -/
theorem C2_amended_witness :
    ((handleWebSocketMessage initialChatState 0 none "" "r"
        ⟨"group-message", some (.pstr "The forecast shows rain tomorrow."), none, none⟩
        = (initialChatState, []))
      ↔ (echoMatch initialChatState.lastProcessed "The forecast shows rain tomorrow." 0 = true
          ∨ likelyUserGreeting "The forecast shows rain tomorrow." = true))
    ∧ (echoMatch initialChatState.lastProcessed "The forecast shows rain tomorrow." 0 = false →
        likelyUserGreeting "The forecast shows rain tomorrow." = false →
        (handleWebSocketMessage initialChatState 0 none "" "r"
            ⟨"group-message", some (.pstr "The forecast shows rain tomorrow."), none, none⟩).1.messages
          = initialChatState.messages ++ [receivedMessageOf 0 "r"
              ⟨"group-message", some (.pstr "The forecast shows rain tomorrow."), none, none⟩
              (extractStringText none "The forecast shows rain tomorrow.")]
        ∧ Action.speak (extractStringText none "The forecast shows rain tomorrow.") ∈
            (handleWebSocketMessage initialChatState 0 none "" "r"
              ⟨"group-message", some (.pstr "The forecast shows rain tomorrow."), none, none⟩).2) :=
  C2_amended initialChatState 0 none "" "r" none none
    "The forecast shows rain tomorrow." rfl

/-- C3 (amended): if the initial connection attempt fails with an
authentication or capacity-exhaustion error, the hook reports itself
connected.  A subsequent send takes the no-op path (logged mock send,
successful return, no network call) exactly when the failure occurred before
the client reference was created (client construction threw); when the
failure came from `start()` after the client reference was set, subsequent
sends are attempted on that network client. -/
theorem C3_amended (st : HookState) (url m : String) (gs : List String) (nc : Nat)
    (method : SendMethod) (netResult : Except String Unit) (g msgText dt : String)
    (h1 : st.isConnecting = false) (h2 : st.isConnected = false) (h3 : st.client = none)
    (hm : (authFailureMsg m || capacityMsg m) = true) :
    ((connectInternal st ⟨some url, gs⟩ (.ctorThrows m) nc).1.isConnected = true
     ∧ (connectInternal st ⟨some url, gs⟩ (.ctorThrows m) nc).1.client = none
     ∧ hookSendToGroup (connectInternal st ⟨some url, gs⟩ (.ctorThrows m) nc).1
         method netResult g msgText dt
         = ([HookAction.mockSend g msgText dt], .ok ()))
    ∧ ((connectInternal st ⟨some url, gs⟩ (.startThrows m) nc).1.isConnected = true
       ∧ (connectInternal st ⟨some url, gs⟩ (.startThrows m) nc).1.client = some nc
       ∧ hookSendToGroup (connectInternal st ⟨some url, gs⟩ (.startThrows m) nc).1
           .hasSendToGroup netResult g msgText dt
           = ([HookAction.netSendToGroup nc g msgText dt], netResult)) := by
  have hcases : authFailureMsg m = true ∨ (authFailureMsg m = false ∧ capacityMsg m = true) := by
    cases ha : authFailureMsg m
    · right
      exact ⟨rfl, by simpa [ha] using hm⟩
    · left; rfl
  rcases hcases with ha | ⟨ha, hc⟩
  · simp [connectInternal, handleConnectFailure, hookSendToGroup, h1, h2, h3, ha]
  · simp [connectInternal, handleConnectFailure, hookSendToGroup, h1, h2, h3, ha, hc]

/-- Witness for C3 (amended): the "Authentication failed" error message. -/
theorem C3_amended_witness :
    ((connectInternal initialHookState ⟨some "wss://hub", ["cortana-users"]⟩
        (.ctorThrows "Authentication failed") 1).1.isConnected = true
     ∧ (connectInternal initialHookState ⟨some "wss://hub", ["cortana-users"]⟩
          (.ctorThrows "Authentication failed") 1).1.client = none
     ∧ hookSendToGroup (connectInternal initialHookState ⟨some "wss://hub", ["cortana-users"]⟩
          (.ctorThrows "Authentication failed") 1).1 .hasSendToGroup (.ok ())
          "cortana-users" "hi" "text"
         = ([HookAction.mockSend "cortana-users" "hi" "text"], .ok ()))
    ∧ ((connectInternal initialHookState ⟨some "wss://hub", ["cortana-users"]⟩
          (.startThrows "Authentication failed") 1).1.isConnected = true
       ∧ (connectInternal initialHookState ⟨some "wss://hub", ["cortana-users"]⟩
            (.startThrows "Authentication failed") 1).1.client = some 1
       ∧ hookSendToGroup (connectInternal initialHookState ⟨some "wss://hub", ["cortana-users"]⟩
            (.startThrows "Authentication failed") 1).1 .hasSendToGroup (.ok ())
            "cortana-users" "hi" "text"
           = ([HookAction.netSendToGroup 1 "cortana-users" "hi" "text"], .ok ())) :=
  C3_amended initialHookState "wss://hub" "Authentication failed" ["cortana-users"] 1
    .hasSendToGroup (.ok ()) "cortana-users" "hi" "text" rfl rfl rfl rfl

end Cortana
